import Mathlib

/- Formal model of the mcp-ts conversational-memory server: the summary
   store, the pgvector-backed semantic search, the MCP tool handlers and
   the chat ingestion path, with theorems about their behaviour.
   Floating-point numbers of the source are modelled as rationals. -/

namespace McpTs

/-- Model of JavaScript String.prototype.trim: strips whitespace from both
    ends of the string. -/
def jsTrim (s : String) : String :=
  String.mk (((s.data.dropWhile Char.isWhitespace).reverse.dropWhile Char.isWhitespace).reverse)

/-- Model of JavaScript String.prototype.toLowerCase (ASCII case folding). -/
def jsToLower (s : String) : String :=
  String.mk (s.data.map Char.toLower)

/-- Case-insensitive substring containment: the semantics of the SQL clause
    column ILIKE the pattern given, as used by the text-search services. -/
def iLikeContains (text pat : String) : Bool :=
  decide ((pat.data.map Char.toLower) <:+: (text.data.map Char.toLower))

/-- Floor of a rational, computed on numerator and denominator. -/
def ratFloor (q : ℚ) : ℤ := Int.fdiv q.num (q.den : ℤ)

/-- Model of parseFloat(x.toFixed(4)) from the search tool: round to four
    decimal places. -/
def toFixed4 (q : ℚ) : ℚ := (ratFloor (q * 10000 + 1/2) : ℚ) / 10000

/-- The configured embedding dimension: VECTOR(1536) in the
    conversations_summary model and the literal 1536 checked by the search
    tool handler. -/
def DIM : Nat := 1536

/-- An embedding vector, exchanged as an ordered numeric array. -/
abbrev Vec := List ℚ

/-- One row of the conversations_summary table
    (ConversationSummaryAttributes in the model file). -/
structure SummaryRow where
  id : Nat
  summary_text : String
  conversation_ids : List String
  summary_embedding : Option Vec
  created_at : Int
deriving DecidableEq, Repr

/-- The SemanticSearchResult row shape produced by the semantic-search SQL. -/
structure SearchResult where
  id : Nat
  summary_text : String
  conversation_ids : List String
  similarity_score : ℚ
  created_at : Int
deriving DecidableEq, Repr

/-- Ordering of the ORDER BY clause: ascending cosine distance, equivalently
    non-increasing similarity score. -/
def scoreGe (a b : SearchResult) : Prop := b.similarity_score ≤ a.similarity_score

instance : DecidableRel scoreGe := fun a b =>
  inferInstanceAs (Decidable (b.similarity_score ≤ a.similarity_score))

instance : IsTotal SearchResult scoreGe :=
  ⟨fun a b => le_total b.similarity_score a.similarity_score⟩

instance : IsTrans SearchResult scoreGe :=
  ⟨fun _ _ _ h1 h2 => le_trans h2 h1⟩

/-- The WHERE clause of ConversationSummaryService.semanticSearch: keep rows
    whose embedding is present and whose similarity 1 - (embedding <=> query)
    is at least the threshold, projecting each kept row to a SearchResult.
    The pgvector cosine-distance operator <=> lives outside this repository,
    so it is passed in as the function dist. -/
def scoredAboveThreshold (dist : Vec → Vec → ℚ) (q : Vec) (threshold : ℚ)
    (tbl : List SummaryRow) : List SearchResult :=
  tbl.filterMap fun r =>
    match r.summary_embedding with
    | none => none
    | some e =>
      let s := 1 - dist e q
      if threshold ≤ s then
        some ⟨r.id, r.summary_text, r.conversation_ids, s, r.created_at⟩
      else none

/-- ConversationSummaryService.semanticSearch: filter by embedding presence
    and threshold, ORDER BY cosine distance (the only sort key in the SQL),
    then LIMIT.  A stable sort stands in for the database sort, which the SQL
    leaves free on ties. -/
def semanticSearch (dist : Vec → Vec → ℚ) (q : Vec) (limit : Int) (threshold : ℚ)
    (tbl : List SummaryRow) : List SearchResult :=
  (List.insertionSort scoreGe (scoredAboveThreshold dist q threshold tbl)).take limit.toNat

/-- The result ordering asserted by the spec for the ranker: non-increasing
    score, and among equal scores the most recent created_at first. -/
def newestFirstOnTies (l : List SearchResult) : Prop :=
  l.Pairwise fun a b =>
    b.similarity_score ≤ a.similarity_score ∧
      (a.similarity_score = b.similarity_score → b.created_at ≤ a.created_at)

/-- C1, counterexample: two candidates with identical embeddings (hence equal
    similarity scores) where the older summary precedes the newer one in the
    table come back with the older summary first, because the SQL orders only
    by cosine distance and applies no created_at tie-break. -/
theorem C1_counterexample :
    ¬ newestFirstOnTies
      (semanticSearch (fun _ _ => 0) [1] 5 0
        [⟨1, "s1", [], some [1], 10⟩, ⟨2, "s2", [], some [1], 20⟩]) := by
  have h : semanticSearch (fun _ _ => 0) [1] 5 0
      [⟨1, "s1", [], some [1], 10⟩, ⟨2, "s2", [], some [1], 20⟩] =
      [⟨1, "s1", [], 1, 10⟩, ⟨2, "s2", [], 1, 20⟩] := by
    norm_num [semanticSearch, scoredAboveThreshold, List.filterMap,
      List.insertionSort, List.orderedInsert, scoreGe]
  rw [h]
  intro hp
  rcases hp with _ | ⟨hab, -⟩
  have := (hab _ (List.mem_singleton.mpr rfl)).2 rfl
  simp at this

/-- C1, amended: for every distance function, query, limit, threshold and
    candidate table, the ranked output of semanticSearch is sorted in
    non-increasing order of similarity score; no created_at tie-break is
    applied, so equal-score candidates stay in table order. -/
theorem C1_sorted_descending (dist : Vec → Vec → ℚ) (q : Vec) (limit : Int)
    (threshold : ℚ) (tbl : List SummaryRow) :
    List.Sorted scoreGe (semanticSearch dist q limit threshold tbl) :=
  (List.sorted_insertionSort scoreGe (scoredAboveThreshold dist q threshold tbl)).sublist
    (List.take_sublist limit.toNat _)

lemma scoredAboveThreshold_length_mono (dist : Vec → Vec → ℚ) (q : Vec)
    {θ θ' : ℚ} (h : θ ≤ θ') (tbl : List SummaryRow) :
    (scoredAboveThreshold dist q θ' tbl).length ≤
      (scoredAboveThreshold dist q θ tbl).length := by
  induction tbl with
  | nil => simp [scoredAboveThreshold]
  | cons r rest ih =>
    simp only [scoredAboveThreshold, List.filterMap_cons] at ih ⊢
    cases hre : r.summary_embedding with
    | none => simpa [hre] using ih
    | some e =>
      by_cases h2 : θ' ≤ 1 - dist e q
      · have h1 : θ ≤ 1 - dist e q := le_trans h h2
        simpa [hre, h1, h2] using ih
      · by_cases h1 : θ ≤ 1 - dist e q
        · simpa [hre, h1, h2] using Nat.le_succ_of_le ih
        · simpa [hre, h1, h2] using ih

lemma length_semanticSearch (dist : Vec → Vec → ℚ) (q : Vec) (limit : Int)
    (θ : ℚ) (tbl : List SummaryRow) :
    (semanticSearch dist q limit θ tbl).length =
      min limit.toNat (scoredAboveThreshold dist q θ tbl).length := by
  simp [semanticSearch, List.length_take,
    (List.perm_insertionSort scoreGe (scoredAboveThreshold dist q θ tbl)).length_eq]

lemma mem_scoredAboveThreshold_le {dist : Vec → Vec → ℚ} {q : Vec} {θ : ℚ}
    {tbl : List SummaryRow} {x : SearchResult}
    (hx : x ∈ scoredAboveThreshold dist q θ tbl) : θ ≤ x.similarity_score := by
  simp only [scoredAboveThreshold, List.mem_filterMap] at hx
  obtain ⟨r, _, hf⟩ := hx
  cases hre : r.summary_embedding with
  | none => simp [hre] at hf
  | some e =>
    simp only [hre] at hf
    by_cases hth : θ ≤ 1 - dist e q
    · simp only [hth, if_pos, Option.some.injEq] at hf
      subst hf
      exact hth
    · simp [hth] at hf

/-- C4: the ranked-search filter keeps exactly the candidates whose
    similarity is at least the threshold (a candidate scoring exactly the
    threshold passes the filter), and raising the threshold never increases
    the number of results returned. -/
theorem C4_threshold_monotone (dist : Vec → Vec → ℚ) (q : Vec) (limit : Int)
    (θ θ' : ℚ) (tbl : List SummaryRow) (r : SummaryRow) (e : Vec)
    (hθ : θ ≤ θ') :
    (∀ x ∈ semanticSearch dist q limit θ tbl, θ ≤ x.similarity_score) ∧
    (r ∈ tbl → r.summary_embedding = some e → 1 - dist e q = θ →
      (⟨r.id, r.summary_text, r.conversation_ids, θ, r.created_at⟩ : SearchResult) ∈
        scoredAboveThreshold dist q θ tbl) ∧
    (semanticSearch dist q limit θ' tbl).length ≤
      (semanticSearch dist q limit θ tbl).length := by
  refine ⟨?_, ?_, ?_⟩
  · intro x hx
    have hx1 : x ∈ List.insertionSort scoreGe (scoredAboveThreshold dist q θ tbl) :=
      List.mem_of_mem_take hx
    have hx2 : x ∈ scoredAboveThreshold dist q θ tbl :=
      (List.perm_insertionSort scoreGe (scoredAboveThreshold dist q θ tbl)).mem_iff.1 hx1
    exact mem_scoredAboveThreshold_le hx2
  · intro hr hre hsc
    refine List.mem_filterMap.mpr ⟨r, hr, ?_⟩
    simp [hre, hsc]
  · rw [length_semanticSearch, length_semanticSearch]
    exact min_le_min (le_refl _) (scoredAboveThreshold_length_mono dist q hθ tbl)

/-- C4, witness: at threshold 0 with a candidate whose similarity is exactly
    0, the candidate passes the filter and the monotonicity bound holds. -/
theorem C4_witness :
    (∀ x ∈ semanticSearch (fun _ _ => 1) [1] 5 0 [⟨1, "s", [], some [1], 0⟩],
        (0:ℚ) ≤ x.similarity_score) ∧
    ((⟨1, "s", [], 0, 0⟩ : SearchResult) ∈
        scoredAboveThreshold (fun _ _ => 1) [1] 0 [⟨1, "s", [], some [1], 0⟩]) ∧
    (semanticSearch (fun _ _ => 1) [1] 5 0 [⟨1, "s", [], some [1], 0⟩]).length ≤
      (semanticSearch (fun _ _ => 1) [1] 5 0 [⟨1, "s", [], some [1], 0⟩]).length := by
  have h := C4_threshold_monotone (fun _ _ => 1) [1] 5 0 0
    [⟨1, "s", [], some [1], 0⟩] ⟨1, "s", [], some [1], 0⟩ [1] (le_refl 0)
  exact ⟨h.1, h.2.1 (by simp) rfl (by norm_num), h.2.2⟩

/-- The generateRecommendation helper of the search tool: qualitative guidance
    from the average similarity score of the result list. -/
def generateRecommendation (results : List SearchResult) : String :=
  if results.length = 0 then
    "No historical context found. Treat as new topic."
  else
    let avgScore := results.foldl (fun sum r => sum + r.similarity_score) 0 /
      (results.length : ℚ)
    if 85/100 ≤ avgScore then
      "Strong historical context found. Reference past discussions in response."
    else if 7/10 ≤ avgScore then
      "Relevant historical context available. Consider incorporating insights."
    else
      "Some related context found but may not be directly relevant."

/-- Mean similarity score of a result list, written as the spec words it. -/
def meanScore (results : List SearchResult) : ℚ :=
  (results.map (·.similarity_score)).sum / (results.length : ℚ)

lemma foldl_add_score (results : List SearchResult) (a : ℚ) :
    results.foldl (fun sum r => sum + r.similarity_score) a =
      a + (results.map (·.similarity_score)).sum := by
  induction results generalizing a with
  | nil => simp
  | cons r rest ih => simp [ih, add_assoc]

/-- C2: the recommendation policy is a pure function of the result list that
    selects its guidance string by the mean similarity score, with the bands
    claimed by the spec: empty input, mean at least 0.85, mean in [0.70, 0.85),
    and mean below 0.70. -/
theorem C2_recommendation_bands (results : List SearchResult) :
    (results = [] →
      generateRecommendation results = "No historical context found. Treat as new topic.") ∧
    (results ≠ [] → 85/100 ≤ meanScore results →
      generateRecommendation results =
        "Strong historical context found. Reference past discussions in response.") ∧
    (results ≠ [] → 7/10 ≤ meanScore results → meanScore results < 85/100 →
      generateRecommendation results =
        "Relevant historical context available. Consider incorporating insights.") ∧
    (results ≠ [] → meanScore results < 7/10 →
      generateRecommendation results =
        "Some related context found but may not be directly relevant.") := by
  have havg : results.foldl (fun sum r => sum + r.similarity_score) 0 /
      (results.length : ℚ) = meanScore results := by
    simp [foldl_add_score, meanScore]
  refine ⟨?_, ?_, ?_, ?_⟩
  · intro h
    subst h
    rfl
  · intro hne h85
    have hlen : results.length ≠ 0 := by simpa [List.length_eq_zero] using hne
    simp [generateRecommendation, hlen, havg, h85]
  · intro hne h70 hlt
    have hlen : results.length ≠ 0 := by simpa [List.length_eq_zero] using hne
    simp [generateRecommendation, hlen, havg, not_le.mpr hlt, h70]
  · intro hne hlt
    have hlen : results.length ≠ 0 := by simpa [List.length_eq_zero] using hne
    have h85 : ¬ (85/100 : ℚ) ≤ meanScore results := not_le.mpr (by linarith)
    have h70 : ¬ (7/10 : ℚ) ≤ meanScore results := not_le.mpr hlt
    simp [generateRecommendation, hlen, havg, h85, h70]

/-- C2, witness: the empty list yields the no-context guidance and a single
    result of score 0.9 yields the strong-context guidance. -/
theorem C2_witness :
    generateRecommendation [] = "No historical context found. Treat as new topic." ∧
    generateRecommendation [⟨1, "s", [], 9/10, 0⟩] =
      "Strong historical context found. Reference past discussions in response." := by
  refine ⟨(C2_recommendation_bands []).1 rfl, ?_⟩
  refine (C2_recommendation_bands [⟨1, "s", [], 9/10, 0⟩]).2.1 (by simp) ?_
  norm_num [meanScore]

/-- One row of the conversations table (ConversationAttributes). -/
structure ConvRow where
  id : Nat
  content : String
  user_id : Nat
  session_id : String
  conversation_id : String
  role : String
  created_at : Int
deriving DecidableEq, Repr

/-- Chronological order, oldest first, used by findByConversationIds. -/
def createdAsc (a b : ConvRow) : Prop := a.created_at ≤ b.created_at

/-- Reverse chronological order, newest first, used by the list queries. -/
def createdDesc (a b : ConvRow) : Prop := b.created_at ≤ a.created_at

instance : DecidableRel createdAsc := fun a b =>
  inferInstanceAs (Decidable (a.created_at ≤ b.created_at))

instance : DecidableRel createdDesc := fun a b =>
  inferInstanceAs (Decidable (b.created_at ≤ a.created_at))

instance : IsTotal ConvRow createdAsc := ⟨fun a b => le_total a.created_at b.created_at⟩

instance : IsTotal ConvRow createdDesc := ⟨fun a b => le_total b.created_at a.created_at⟩

instance : IsTrans ConvRow createdAsc := ⟨fun _ _ _ h1 h2 => le_trans h1 h2⟩

instance : IsTrans ConvRow createdDesc := ⟨fun _ _ _ h1 h2 => le_trans h2 h1⟩

/-- Newest-first order on summary rows, used by the text-search fallback. -/
def summaryCreatedDesc (a b : SummaryRow) : Prop := b.created_at ≤ a.created_at

instance : DecidableRel summaryCreatedDesc := fun a b =>
  inferInstanceAs (Decidable (b.created_at ≤ a.created_at))

/-- ConversationService.findByConversationIds: the rows whose conversation_id
    is in the given list, ordered by created_at ascending; the empty id list
    short-circuits to the empty result. -/
def findByConversationIds (ids : List String) (tbl : List ConvRow) : List ConvRow :=
  if ids = [] then []
  else List.insertionSort createdAsc (tbl.filter fun c => ids.contains c.conversation_id)

/-- ConversationSummaryService.textSearch: case-insensitive substring match
    over summary_text, ordered newest first, LIMIT. -/
def textSearch (searchQuery : String) (limit : Int) (tbl : List SummaryRow) :
    List SummaryRow :=
  (List.insertionSort summaryCreatedDesc
    (tbl.filter fun r => iLikeContains r.summary_text searchQuery)).take limit.toNat

/-- The record store visible to the tool handlers: the two tables plus an
    optional failure modelling the database throwing (StoreUnavailable); when
    set, any query of this request raises it. -/
structure Db where
  summaries : List SummaryRow
  conversations : List ConvRow
  failure : Option String
deriving DecidableEq, Repr

/-- A semantic-search store call: raises the store failure when present. -/
def storeSemanticSearch (dist : Vec → Vec → ℚ) (q : Vec) (limit : Int)
    (θ : ℚ) (db : Db) : Except String (List SearchResult) :=
  match db.failure with
  | some e => .error e
  | none => .ok (semanticSearch dist q limit θ db.summaries)

/-- A text-search store call: raises the store failure when present. -/
def storeTextSearch (searchQuery : String) (limit : Int) (db : Db) :
    Except String (List SummaryRow) :=
  match db.failure with
  | some e => .error e
  | none => .ok (textSearch searchQuery limit db.summaries)

/-- The getRelevanceLevel helper of the search tool. -/
def getRelevanceLevel (score : ℚ) : String :=
  if 9/10 ≤ score then "very_high"
  else if 8/10 ≤ score then "high"
  else if 7/10 ≤ score then "good"
  else if 6/10 ≤ score then "moderate"
  else "low"

/-- A conversation message as included in an enriched search result. -/
structure ConvOut where
  id : Nat
  conversationId : String
  role : String
  content : String
  createdAt : Int
deriving DecidableEq, Repr

/-- One enriched entry of the search tool's results list. -/
structure EnrichedResult where
  id : Nat
  summaryText : String
  conversationIds : List String
  similarityScore : ℚ
  relevanceLevel : String
  createdAt : Int
  conversations : List ConvOut
deriving DecidableEq, Repr

/-- The searchParams object echoed in a successful non-empty response. -/
structure EffectiveSearchParams where
  limit : Int
  similarityThreshold : ℚ
  includeConversations : Bool
deriving DecidableEq, Repr

/-- The JSON payload of the search tool's responses; optional fields record
    which keys the handler includes on each path. -/
structure ToolResponse where
  success : Bool
  query : Option String
  message : Option String
  results : Option (List EnrichedResult)
  totalMatches : Option Nat
  suggestion : Option String
  searchParams : Option EffectiveSearchParams
  recommendation : Option String
  error : Option String
deriving DecidableEq, Repr

/-- An error payload of the search tool: success false plus an error string. -/
def mkError (msg : String) : ToolResponse :=
  { success := false, query := none, message := none, results := none,
    totalMatches := none, suggestion := none, searchParams := none,
    recommendation := none, error := some msg }

/-- The parameters of the search-conversation-summaries tool. -/
structure SearchToolParams where
  patientMessage : String
  queryEmbedding : Vec
  limit : Int
  similarityThreshold : ℚ
  includeConversations : Bool
deriving DecidableEq, Repr

/-- The limit clamp of the search tool handler. -/
def effectiveLimit (limit : Int) : Int := min (max 1 limit) 20

/-- The threshold clamp of the search tool handler. -/
def effectiveThreshold (θ : ℚ) : ℚ := min (max 0 θ) 1

/-- Enrichment of one search result, optionally attaching its conversations. -/
def enrich (db : Db) (includeConversations : Bool) (r : SearchResult) :
    EnrichedResult :=
  { id := r.id, summaryText := r.summary_text,
    conversationIds := r.conversation_ids,
    similarityScore := toFixed4 r.similarity_score,
    relevanceLevel := getRelevanceLevel r.similarity_score,
    createdAt := r.created_at,
    conversations :=
      if includeConversations && !r.conversation_ids.isEmpty then
        (findByConversationIds r.conversation_ids db.conversations).map fun c =>
          ⟨c.id, c.conversation_id, c.role, c.content, c.created_at⟩
      else [] }

/-- Handler of the search-conversation-summaries MCP tool: input validation,
    clamping, store search guarded by try/catch, and the two success shapes. -/
def searchConversationSummariesHandler (dist : Vec → Vec → ℚ)
    (p : SearchToolParams) (db : Db) : ToolResponse :=
  if jsTrim p.patientMessage = "" then
    mkError "Patient message is required"
  else if p.queryEmbedding = [] then
    mkError "Query embedding (array of numbers) is required"
  else if p.queryEmbedding.length ≠ DIM then
    mkError ("Invalid embedding dimension: expected 1536, got " ++
      toString p.queryEmbedding.length)
  else
    match storeSemanticSearch dist p.queryEmbedding (effectiveLimit p.limit)
        (effectiveThreshold p.similarityThreshold) db with
    | .error e => mkError ("Search failed: " ++ e)
    | .ok searchResults =>
      if searchResults.length = 0 then
        { success := true, query := some p.patientMessage,
          message := some "No sufficiently similar conversation summaries found",
          results := some [], totalMatches := some 0,
          suggestion := some (if 1/2 < p.similarityThreshold then
              "Try lowering the similarity threshold for broader results"
            else
              "This may be a new topic with no historical context"),
          searchParams := none, recommendation := none, error := none }
      else
        { success := true, query := some p.patientMessage, message := none,
          results := some (searchResults.map (enrich db p.includeConversations)),
          totalMatches := some searchResults.length, suggestion := none,
          searchParams := some ⟨effectiveLimit p.limit,
            effectiveThreshold p.similarityThreshold, p.includeConversations⟩,
          recommendation := some (generateRecommendation searchResults),
          error := none }

/-- The parameters of the text-search-conversation-summaries tool. -/
structure TextToolParams where
  searchQuery : String
  limit : Int
deriving DecidableEq, Repr

/-- One entry of the text-search tool's results list. -/
structure TextResultItem where
  id : Nat
  summaryText : String
  conversationIds : List String
  createdAt : Int
deriving DecidableEq, Repr

/-- The JSON payload of the text-search tool's responses. -/
structure TextToolResponse where
  success : Bool
  query : Option String
  results : Option (List TextResultItem)
  totalMatches : Option Nat
  note : Option String
  error : Option String
deriving DecidableEq, Repr

/-- An error payload of the text-search tool. -/
def mkTextError (msg : String) : TextToolResponse :=
  { success := false, query := none, results := none, totalMatches := none,
    note := none, error := some msg }

/-- Handler of the text-search-conversation-summaries MCP tool. -/
def textSearchConversationSummariesHandler (p : TextToolParams) (db : Db) :
    TextToolResponse :=
  if jsTrim p.searchQuery = "" then
    mkTextError "Search query is required"
  else
    match storeTextSearch p.searchQuery p.limit db with
    | .error e => mkTextError ("Search failed: " ++ e)
    | .ok results =>
      { success := true, query := some p.searchQuery,
        results := some (results.map fun r =>
          ⟨r.id, r.summary_text, r.conversation_ids, r.created_at⟩),
        totalMatches := some results.length,
        note := some "Results are from text matching, not semantic similarity",
        error := none }

/-- The set of keys present in a search-tool response payload. -/
def respShape (r : ToolResponse) : List Bool :=
  [r.query.isSome, r.message.isSome, r.results.isSome, r.totalMatches.isSome,
   r.suggestion.isSome, r.searchParams.isSome, r.recommendation.isSome,
   r.error.isSome]

/-- C6: an empty or wrongly-dimensioned query embedding is rejected with a
    failure payload, and the response does not depend on the record store at
    all, so the rejection happens before any store access. -/
theorem C6_invalid_query_rejected (dist : Vec → Vec → ℚ) (p : SearchToolParams)
    (db : Db) (h : p.queryEmbedding = [] ∨ p.queryEmbedding.length ≠ DIM) :
    (searchConversationSummariesHandler dist p db).success = false ∧
    (searchConversationSummariesHandler dist p db).error.isSome = true ∧
    ∀ db', searchConversationSummariesHandler dist p db' =
      searchConversationSummariesHandler dist p db := by
  by_cases hmsg : jsTrim p.patientMessage = ""
  · simp [searchConversationSummariesHandler, hmsg, mkError]
  · rcases h with h | h
    · simp [searchConversationSummariesHandler, hmsg, h, mkError]
    · by_cases hemp : p.queryEmbedding = []
      · simp [searchConversationSummariesHandler, hmsg, hemp, mkError]
      · simp [searchConversationSummariesHandler, hmsg, hemp, h, mkError]

/-- C6, witness: an empty query embedding is rejected, independent of two
    different stores. -/
theorem C6_witness :
    (searchConversationSummariesHandler (fun _ _ => 0)
      ⟨"hi", [], 5, 7/10, false⟩ ⟨[], [], none⟩).success = false ∧
    (searchConversationSummariesHandler (fun _ _ => 0)
      ⟨"hi", [], 5, 7/10, false⟩ ⟨[], [], none⟩).error.isSome = true ∧
    searchConversationSummariesHandler (fun _ _ => 0)
      ⟨"hi", [], 5, 7/10, false⟩ ⟨[⟨1, "s", [], some [1], 0⟩], [], some "down"⟩ =
      searchConversationSummariesHandler (fun _ _ => 0)
        ⟨"hi", [], 5, 7/10, false⟩ ⟨[], [], none⟩ := by
  have h := C6_invalid_query_rejected (fun _ _ => 0)
    ⟨"hi", [], 5, 7/10, false⟩ ⟨[], [], none⟩ (Or.inl rfl)
  exact ⟨h.1, h.2.1, h.2.2 ⟨[⟨1, "s", [], some [1], 0⟩], [], some "down"⟩⟩

/-- C7: the search tool clamps the threshold into the interval from 0 to 1
    and the limit into the interval from 1 to 20, and no response of the
    handler ever carries more than 20 results. -/
theorem C7_clamped_limits (limit : Int) (θ : ℚ) (dist : Vec → Vec → ℚ)
    (p : SearchToolParams) (db : Db) :
    1 ≤ effectiveLimit limit ∧ effectiveLimit limit ≤ 20 ∧
    0 ≤ effectiveThreshold θ ∧ effectiveThreshold θ ≤ 1 ∧
    ((searchConversationSummariesHandler dist p db).results.getD []).length ≤ 20 := by
  refine ⟨le_min (le_max_left 1 limit) (by norm_num), min_le_right _ _,
    le_min (le_max_left 0 θ) (by norm_num), min_le_right _ _, ?_⟩
  by_cases h1 : jsTrim p.patientMessage = ""
  · simp [searchConversationSummariesHandler, h1, mkError]
  by_cases h2 : p.queryEmbedding = []
  · simp [searchConversationSummariesHandler, h1, h2, mkError]
  by_cases h3 : p.queryEmbedding.length ≠ DIM
  · simp [searchConversationSummariesHandler, h1, h2, h3, mkError]
  cases hf : db.failure with
  | some e =>
    simp [searchConversationSummariesHandler, h1, h2, h3, storeSemanticSearch,
      hf, mkError]
  | none =>
    have hlen : (semanticSearch dist p.queryEmbedding (effectiveLimit p.limit)
        (effectiveThreshold p.similarityThreshold) db.summaries).length ≤ 20 := by
      rw [length_semanticSearch]
      refine le_trans (min_le_left _ _) ?_
      have h20 : effectiveLimit p.limit ≤ 20 := min_le_right _ _
      omega
    by_cases hz : (semanticSearch dist p.queryEmbedding (effectiveLimit p.limit)
        (effectiveThreshold p.similarityThreshold) db.summaries).length = 0
    · simp [searchConversationSummariesHandler, h1, h2, h3, storeSemanticSearch,
        hf, hz]
    · simpa [searchConversationSummariesHandler, h1, h2, h3, storeSemanticSearch,
        hf, hz] using hlen

lemma handler_zero_result (dist : Vec → Vec → ℚ) (p : SearchToolParams) (db : Db)
    (hmsg : jsTrim p.patientMessage ≠ "") (hne : p.queryEmbedding ≠ [])
    (hdim : p.queryEmbedding.length = DIM) (hok : db.failure = none)
    (hz : semanticSearch dist p.queryEmbedding (effectiveLimit p.limit)
      (effectiveThreshold p.similarityThreshold) db.summaries = []) :
    searchConversationSummariesHandler dist p db =
      { success := true, query := some p.patientMessage,
        message := some "No sufficiently similar conversation summaries found",
        results := some [], totalMatches := some 0,
        suggestion := some (if 1/2 < p.similarityThreshold then
            "Try lowering the similarity threshold for broader results"
          else
            "This may be a new topic with no historical context"),
        searchParams := none, recommendation := none, error := none } := by
  simp [searchConversationSummariesHandler, hmsg, hne, hdim, storeSemanticSearch,
    hok, hz]

lemma handler_nonzero_result (dist : Vec → Vec → ℚ) (p : SearchToolParams)
    (db : Db) (rs : List SearchResult)
    (hmsg : jsTrim p.patientMessage ≠ "") (hne : p.queryEmbedding ≠ [])
    (hdim : p.queryEmbedding.length = DIM) (hok : db.failure = none)
    (hrs : semanticSearch dist p.queryEmbedding (effectiveLimit p.limit)
      (effectiveThreshold p.similarityThreshold) db.summaries = rs)
    (hz : rs ≠ []) :
    searchConversationSummariesHandler dist p db =
      { success := true, query := some p.patientMessage, message := none,
        results := some (rs.map (enrich db p.includeConversations)),
        totalMatches := some rs.length, suggestion := none,
        searchParams := some ⟨effectiveLimit p.limit,
          effectiveThreshold p.similarityThreshold, p.includeConversations⟩,
        recommendation := some (generateRecommendation rs),
        error := none } := by
  have hlz : ¬ rs.length = 0 := by simpa [List.length_eq_zero] using hz
  simp [searchConversationSummariesHandler, hmsg, hne, hdim, storeSemanticSearch,
    hok, hrs, hlz]

lemma replicate_dim_ne_nil : List.replicate DIM (1:ℚ) ≠ [] := by
  intro h
  have hlen := congrArg List.length h
  rw [List.length_replicate] at hlen
  exact absurd hlen (by decide)

lemma replicate_dim_length : (List.replicate DIM (1:ℚ)).length = DIM :=
  List.length_replicate _ _

lemma cex_search_below :
    semanticSearch (fun _ _ => 1) (List.replicate DIM 1) (effectiveLimit 5)
      (effectiveThreshold (7/10)) [⟨1, "s1", [], some [1], 10⟩] = [] := by
  norm_num [semanticSearch, scoredAboveThreshold, effectiveThreshold,
    effectiveLimit, List.filterMap, List.insertionSort, List.orderedInsert]

lemma cex_search_above :
    semanticSearch (fun _ _ => 0) (List.replicate DIM 1) (effectiveLimit 5)
      (effectiveThreshold (7/10)) [⟨1, "s1", [], some [1], 10⟩] =
      [⟨1, "s1", [], 1, 10⟩] := by
  norm_num [semanticSearch, scoredAboveThreshold, effectiveThreshold,
    effectiveLimit, List.filterMap, List.insertionSort, List.orderedInsert]

/-- C3, counterexample: with a valid query against a store whose only summary
    falls below threshold, the zero-result response carries no recommendation
    field at all (instead of the claimed no-historical-context recommendation)
    and its key set differs from that of a successful non-empty search. -/
theorem C3_counterexample :
    (searchConversationSummariesHandler (fun _ _ => 1)
        ⟨"hello", List.replicate DIM 1, 5, 7/10, false⟩
        ⟨[⟨1, "s1", [], some [1], 10⟩], [], none⟩).results = some [] ∧
    (searchConversationSummariesHandler (fun _ _ => 1)
        ⟨"hello", List.replicate DIM 1, 5, 7/10, false⟩
        ⟨[⟨1, "s1", [], some [1], 10⟩], [], none⟩).recommendation = none ∧
    respShape (searchConversationSummariesHandler (fun _ _ => 1)
        ⟨"hello", List.replicate DIM 1, 5, 7/10, false⟩
        ⟨[⟨1, "s1", [], some [1], 10⟩], [], none⟩) ≠
      respShape (searchConversationSummariesHandler (fun _ _ => 0)
        ⟨"hello", List.replicate DIM 1, 5, 7/10, false⟩
        ⟨[⟨1, "s1", [], some [1], 10⟩], [], none⟩) := by
  have hlow : searchConversationSummariesHandler (fun _ _ => 1)
      ⟨"hello", List.replicate DIM 1, 5, 7/10, false⟩
      ⟨[⟨1, "s1", [], some [1], 10⟩], [], none⟩ =
      { success := true, query := some "hello",
        message := some "No sufficiently similar conversation summaries found",
        results := some [], totalMatches := some 0,
        suggestion := some "Try lowering the similarity threshold for broader results",
        searchParams := none, recommendation := none, error := none } := by
    rw [handler_zero_result (fun _ _ => 1)
      ⟨"hello", List.replicate DIM 1, 5, 7/10, false⟩
      ⟨[⟨1, "s1", [], some [1], 10⟩], [], none⟩ (by decide) replicate_dim_ne_nil
      replicate_dim_length rfl cex_search_below]
    norm_num
  have hhigh : searchConversationSummariesHandler (fun _ _ => 0)
      ⟨"hello", List.replicate DIM 1, 5, 7/10, false⟩
      ⟨[⟨1, "s1", [], some [1], 10⟩], [], none⟩ =
      { success := true, query := some "hello", message := none,
        results := some ([(⟨1, "s1", [], 1, 10⟩ : SearchResult)].map
          (enrich ⟨[⟨1, "s1", [], some [1], 10⟩], [], none⟩ false)),
        totalMatches := some 1, suggestion := none,
        searchParams := some ⟨effectiveLimit 5, effectiveThreshold (7/10), false⟩,
        recommendation := some (generateRecommendation [⟨1, "s1", [], 1, 10⟩]),
        error := none } := by
    rw [handler_nonzero_result (fun _ _ => 0)
      ⟨"hello", List.replicate DIM 1, 5, 7/10, false⟩
      ⟨[⟨1, "s1", [], some [1], 10⟩], [], none⟩ [⟨1, "s1", [], 1, 10⟩]
      (by decide) replicate_dim_ne_nil replicate_dim_length rfl
      cex_search_above (by simp)]
    rfl
  rw [hlow, hhigh]
  refine ⟨rfl, rfl, ?_⟩
  simp [respShape]

/-- C3, amended: a semantic search that finds zero results above the
    threshold returns success with an empty results list and totalMatches 0,
    plus a message and a suggestion, but no recommendation field; the
    response is the same whatever zero-result store produced it (so the
    no-candidate and all-below-threshold cases are indistinguishable from
    each other), though its shape differs from a non-empty search. -/
theorem C3_zero_result_response (dist : Vec → Vec → ℚ) (p : SearchToolParams)
    (db : Db) (hmsg : jsTrim p.patientMessage ≠ "") (hne : p.queryEmbedding ≠ [])
    (hdim : p.queryEmbedding.length = DIM) (hok : db.failure = none)
    (hz : semanticSearch dist p.queryEmbedding (effectiveLimit p.limit)
      (effectiveThreshold p.similarityThreshold) db.summaries = []) :
    (searchConversationSummariesHandler dist p db).success = true ∧
    (searchConversationSummariesHandler dist p db).results = some [] ∧
    (searchConversationSummariesHandler dist p db).totalMatches = some 0 ∧
    (searchConversationSummariesHandler dist p db).message.isSome = true ∧
    (searchConversationSummariesHandler dist p db).suggestion.isSome = true ∧
    (searchConversationSummariesHandler dist p db).recommendation = none ∧
    ∀ db', db'.failure = none →
      semanticSearch dist p.queryEmbedding (effectiveLimit p.limit)
        (effectiveThreshold p.similarityThreshold) db'.summaries = [] →
      searchConversationSummariesHandler dist p db' =
        searchConversationSummariesHandler dist p db := by
  rw [handler_zero_result dist p db hmsg hne hdim hok hz]
  refine ⟨rfl, rfl, rfl, rfl, rfl, rfl, ?_⟩
  intro db' hok' hz'
  rw [handler_zero_result dist p db' hmsg hne hdim hok' hz']

/-- C3, witness for the amended claim: a store whose single candidate falls
    below threshold and a store with no candidates at all give the same
    zero-result response. -/
theorem C3_witness :
    (searchConversationSummariesHandler (fun _ _ => 1)
        ⟨"hello", List.replicate DIM 1, 5, 7/10, false⟩
        ⟨[⟨1, "s1", [], some [1], 10⟩], [], none⟩).success = true ∧
    (searchConversationSummariesHandler (fun _ _ => 1)
        ⟨"hello", List.replicate DIM 1, 5, 7/10, false⟩
        ⟨[⟨1, "s1", [], some [1], 10⟩], [], none⟩).results = some [] ∧
    (searchConversationSummariesHandler (fun _ _ => 1)
        ⟨"hello", List.replicate DIM 1, 5, 7/10, false⟩
        ⟨[⟨1, "s1", [], some [1], 10⟩], [], none⟩).recommendation = none ∧
    searchConversationSummariesHandler (fun _ _ => 1)
        ⟨"hello", List.replicate DIM 1, 5, 7/10, false⟩ ⟨[], [], none⟩ =
      searchConversationSummariesHandler (fun _ _ => 1)
        ⟨"hello", List.replicate DIM 1, 5, 7/10, false⟩
        ⟨[⟨1, "s1", [], some [1], 10⟩], [], none⟩ := by
  have h := C3_zero_result_response (fun _ _ => 1)
    ⟨"hello", List.replicate DIM 1, 5, 7/10, false⟩
    ⟨[⟨1, "s1", [], some [1], 10⟩], [], none⟩ (by decide) replicate_dim_ne_nil
    replicate_dim_length rfl cex_search_below
  exact ⟨h.1, h.2.1, h.2.2.2.2.2.1, h.2.2.2.2.2.2 ⟨[], [], none⟩ rfl
    (by simp [semanticSearch, scoredAboveThreshold])⟩

/-- C9: when the store fails during the search, both MCP search tool handlers
    return a payload with success false and an error message instead of
    propagating the exception. -/
theorem C9_store_failure_handled (dist : Vec → Vec → ℚ) (p : SearchToolParams)
    (pt : TextToolParams) (db : Db) (msg : String)
    (hf : db.failure = some msg) :
    (searchConversationSummariesHandler dist p db).success = false ∧
    (searchConversationSummariesHandler dist p db).error.isSome = true ∧
    (textSearchConversationSummariesHandler pt db).success = false ∧
    (textSearchConversationSummariesHandler pt db).error.isSome = true := by
  have hs : (searchConversationSummariesHandler dist p db).success = false ∧
      (searchConversationSummariesHandler dist p db).error.isSome = true := by
    by_cases h1 : jsTrim p.patientMessage = ""
    · simp [searchConversationSummariesHandler, h1, mkError]
    by_cases h2 : p.queryEmbedding = []
    · simp [searchConversationSummariesHandler, h1, h2, mkError]
    by_cases h3 : p.queryEmbedding.length ≠ DIM
    · simp [searchConversationSummariesHandler, h1, h2, h3, mkError]
    · simp [searchConversationSummariesHandler, h1, h2, h3, storeSemanticSearch,
        hf, mkError]
  have ht : (textSearchConversationSummariesHandler pt db).success = false ∧
      (textSearchConversationSummariesHandler pt db).error.isSome = true := by
    by_cases h1 : jsTrim pt.searchQuery = ""
    · simp [textSearchConversationSummariesHandler, h1, mkTextError]
    · simp [textSearchConversationSummariesHandler, h1, storeTextSearch, hf,
        mkTextError]
  exact ⟨hs.1, hs.2, ht.1, ht.2⟩

/-- C9, witness: with an unreachable store, both tools answer success false
    with an error, on a valid query. -/
theorem C9_witness :
    (searchConversationSummariesHandler (fun _ _ => 0)
        ⟨"hello", List.replicate DIM 1, 5, 7/10, false⟩
        ⟨[], [], some "connection refused"⟩).success = false ∧
    (searchConversationSummariesHandler (fun _ _ => 0)
        ⟨"hello", List.replicate DIM 1, 5, 7/10, false⟩
        ⟨[], [], some "connection refused"⟩).error.isSome = true ∧
    (textSearchConversationSummariesHandler ⟨"anxiety", 5⟩
        ⟨[], [], some "connection refused"⟩).success = false ∧
    (textSearchConversationSummariesHandler ⟨"anxiety", 5⟩
        ⟨[], [], some "connection refused"⟩).error.isSome = true :=
  C9_store_failure_handled (fun _ _ => 0)
    ⟨"hello", List.replicate DIM 1, 5, 7/10, false⟩ ⟨"anxiety", 5⟩
    ⟨[], [], some "connection refused"⟩ "connection refused" rfl

/-- Failure raised by the store on an embedding write. -/
inductive PgError
  | dimensionMismatch
deriving DecidableEq, Repr

/-- Model of the UPDATE statement of ConversationSummaryService.updateEmbedding
    run against the conversations_summary table, whose summary_embedding
    column the model file declares as VECTOR(1536).  Sequelize replacements
    inline the vector into the SQL text as a literal, and the immutable cast
    of that constant to the column type vector(1536) is folded at plan time,
    so a length other than DIM raises the dimension error before any row
    matching, leaving the table unchanged; otherwise the affected-row count
    is the number of rows matching the id (zero when the id is absent). -/
def setSummaryEmbedding (id : Nat) (v : Vec) (tbl : List SummaryRow) :
    Except PgError (List SummaryRow × Nat) :=
  if v.length = DIM then
    .ok (tbl.map (fun r => if r.id == id then
        { r with summary_embedding := some v } else r),
      tbl.countP (fun r => r.id == id))
  else .error .dimensionMismatch

/-- ConversationSummaryService.updateEmbedding: run the UPDATE and report
    whether any row was affected. -/
def updateEmbedding (id : Nat) (v : Vec) (tbl : List SummaryRow) :
    Except PgError (List SummaryRow × Bool) :=
  (setSummaryEmbedding id v tbl).map fun p => (p.1, decide (0 < p.2))

/-- The PUT embedding route handler: 500 on a store error (table unchanged),
    404 when no row was updated, 200 on success.  The triple is the HTTP
    status, the success flag and the resulting table. -/
def putEmbeddingHandler (id : Nat) (v : Vec) (tbl : List SummaryRow) :
    Nat × Bool × List SummaryRow :=
  match updateEmbedding id v tbl with
  | .error _ => (500, false, tbl)
  | .ok (t, true) => (200, true, t)
  | .ok (t, false) => (404, false, t)

lemma update_map_no_match (id : Nat) (v : Vec) (tbl : List SummaryRow)
    (h : ∀ r ∈ tbl, (r.id == id) = false) :
    tbl.map (fun r => if r.id == id then
      { r with summary_embedding := some v } else r) = tbl := by
  induction tbl with
  | nil => rfl
  | cons a l ih =>
    have hfa : ¬ (a.id == id) = true := by simp [h a (List.mem_cons_self a l)]
    rw [List.map_cons, if_neg hfa, ih fun r hr => h r (List.mem_cons_of_mem a hr)]

lemma countP_no_match (id : Nat) (tbl : List SummaryRow)
    (h : ∀ r ∈ tbl, (r.id == id) = false) :
    tbl.countP (fun r => r.id == id) = 0 := by
  induction tbl with
  | nil => rfl
  | cons a l ih =>
    rw [List.countP_cons]
    simp [h a (List.mem_cons_self a l), ih fun r hr => h r (List.mem_cons_of_mem a hr)]

/-- C5: updateEmbedding fails with the dimension error whenever the vector's
    length differs from the configured dimension 1536 — the plan-time check
    of the inlined literal's cast to vector(1536) fires before any row
    matching — and the store is then unchanged (the route answers 500); with
    a well-dimensioned vector and no summary of the given id, zero rows are
    affected and the route fails with NotFound (404). -/
theorem C5_dimension_check (tbl : List SummaryRow) (id : Nat) (v : Vec) :
    (v.length ≠ DIM →
      updateEmbedding id v tbl = Except.error PgError.dimensionMismatch ∧
      putEmbeddingHandler id v tbl = (500, false, tbl)) ∧
    (v.length = DIM → tbl.any (fun r => r.id == id) = false →
      updateEmbedding id v tbl = Except.ok (tbl, false) ∧
      putEmbeddingHandler id v tbl = (404, false, tbl)) := by
  constructor
  · intro hdim
    have h1 : updateEmbedding id v tbl = Except.error PgError.dimensionMismatch := by
      simp [updateEmbedding, setSummaryEmbedding, hdim, Except.map]
    exact ⟨h1, by simp [putEmbeddingHandler, h1]⟩
  · intro hdim hex
    have hnone : ∀ r ∈ tbl, (r.id == id) = false := by
      intro r hr
      by_contra hcon
      have hany : tbl.any (fun r => r.id == id) = true :=
        List.any_eq_true.mpr ⟨r, hr, by simpa using hcon⟩
      rw [hany] at hex
      exact Bool.noConfusion hex
    have hset : setSummaryEmbedding id v tbl = Except.ok (tbl, 0) := by
      rw [setSummaryEmbedding, if_pos hdim, update_map_no_match id v tbl hnone,
        countP_no_match id tbl hnone]
    have h1 : updateEmbedding id v tbl = Except.ok (tbl, false) := by
      simp [updateEmbedding, hset, Except.map]
    exact ⟨h1, by simp [putEmbeddingHandler, h1]⟩

/-- C5, witness: the length-10 vector of Scenario D fails with the dimension
    error whether or not summary 42 exists, leaving the store unchanged, and
    a well-dimensioned vector on a missing id fails with NotFound. -/
theorem C5_witness :
    (updateEmbedding 42 (List.replicate 10 1) [⟨42, "s", [], none, 0⟩] =
        Except.error PgError.dimensionMismatch ∧
      putEmbeddingHandler 42 (List.replicate 10 1) [⟨42, "s", [], none, 0⟩] =
        (500, false, [⟨42, "s", [], none, 0⟩])) ∧
    (updateEmbedding 42 (List.replicate 10 1) [] =
        Except.error PgError.dimensionMismatch ∧
      putEmbeddingHandler 42 (List.replicate 10 1) [] = (500, false, [])) ∧
    (updateEmbedding 7 (List.replicate DIM 1) [] = Except.ok ([], false) ∧
      putEmbeddingHandler 7 (List.replicate DIM 1) [] = (404, false, [])) :=
  ⟨(C5_dimension_check [⟨42, "s", [], none, 0⟩] 42 (List.replicate 10 1)).1
      (by decide),
    (C5_dimension_check [] 42 (List.replicate 10 1)).1 (by decide),
    (C5_dimension_check [] 7 (List.replicate DIM 1)).2 replicate_dim_length rfl⟩

/-- One row of the sessions table (SessionAttributes). -/
structure SessionRow where
  id : Nat
  title : Option String
  user_id : Nat
  session_id : String
deriving DecidableEq, Repr

/-- The store as seen by the chat ingestion path. -/
structure ChatStore where
  sessions : List SessionRow
  conversations : List ConvRow
deriving DecidableEq, Repr

/-- SessionService.findBySessionId, reduced to the existence check the chat
    handler makes of its result. -/
def sessionKeyExists (sk : String) (st : ChatStore) : Bool :=
  st.sessions.any fun s => s.session_id == sk

/-- Failure of Session.create under the unique constraint that the sessions
    model declares on session_id. -/
inductive SessionCreateError
  | sessionAlreadyExists
deriving DecidableEq, Repr

/-- Session.create guarded by the store-level uniqueness constraint. -/
def createSession (u : Nat) (sk : String) (st : ChatStore) :
    Except SessionCreateError ChatStore :=
  if sessionKeyExists sk st then .error .sessionAlreadyExists
  else .ok { st with
    sessions := st.sessions ++ [⟨st.sessions.length + 1, none, u, sk⟩] }

/-- ConversationService.create as used by the chat handler: append the turn. -/
def appendConversation (u : Nat) (sk cid content role : String) (t : Int)
    (st : ChatStore) : ChatStore :=
  { st with conversations := st.conversations ++
      [⟨st.conversations.length + 1, content, u, sk, cid, role, t⟩] }

/-- The POST message handler of chat.routes after its session-existence check:
    create the session if the check found none — any create error is caught by
    the surrounding try and the request fails with a 500 before the turn is
    written — then append the turn.  Returns the new store and whether the
    request succeeded. -/
def chatMessageRemainder (found : Bool) (u : Nat) (sk cid content role : String)
    (t : Int) (st : ChatStore) : ChatStore × Bool :=
  if found then (appendConversation u sk cid content role t st, true)
  else
    match createSession u sk st with
    | .error _ => (st, false)
    | .ok st1 => (appendConversation u sk cid content role t st1, true)

/-- The POST message handler of chat.routes: look up the session, create it
    when absent, then append the turn. -/
def chatMessageHandler (u : Nat) (sk cid content role : String) (t : Int)
    (st : ChatStore) : ChatStore × Bool :=
  chatMessageRemainder (sessionKeyExists sk st) u sk cid content role t st

/-- Two concurrent recordTurn calls for the same session key, in the
    interleaving where both session-existence checks read the initial store
    before either create runs; the two remainders then run in sequence. -/
def raceTwoRecordTurns (u : Nat) (sk c1 c2 cid1 cid2 : String)
    (st : ChatStore) : ChatStore × Bool × Bool :=
  let foundA := sessionKeyExists sk st
  let foundB := sessionKeyExists sk st
  let ra := chatMessageRemainder foundA u sk cid1 c1 "user" 1 st
  let rb := chatMessageRemainder foundB u sk cid2 c2 "user" 2 ra.1
  (rb.1, ra.2, rb.2)

/-- C8: in the racy interleaving of two recordTurn calls on the same new
    session key, the uniqueness constraint makes the second create fail with
    SessionAlreadyExists, and the handler treats that as fatal: exactly one
    session row exists afterwards, but the second caller's request fails and
    its turn is never appended — only one of the two turns is stored, against
    the required idempotent-create semantics. -/
theorem C8_race_loses_second_turn :
    ((raceTwoRecordTurns 7 "abc" "hi" "hi" "turn-1" "turn-2"
        ⟨[], []⟩).1.sessions.countP (fun s => s.session_id == "abc") = 1) ∧
    (raceTwoRecordTurns 7 "abc" "hi" "hi" "turn-1" "turn-2" ⟨[], []⟩).2.1 = true ∧
    (raceTwoRecordTurns 7 "abc" "hi" "hi" "turn-1" "turn-2" ⟨[], []⟩).2.2 = false ∧
    (raceTwoRecordTurns 7 "abc" "hi" "hi" "turn-1" "turn-2"
        ⟨[], []⟩).1.conversations.length = 1 := by
  decide

/-- ConversationService.findAll: all rows, newest first, with LIMIT and
    OFFSET. -/
def findAllConversations (limit offset : Int) (tbl : List ConvRow) :
    List ConvRow :=
  ((List.insertionSort createdDesc tbl).drop offset.toNat).take limit.toNat

/-- ConversationService.searchByTopic: an empty or whitespace-only term falls
    back to findAll; otherwise the rows whose content contains the trimmed
    term case-insensitively, newest first, with LIMIT and OFFSET. -/
def searchByTopic (searchTerm : String) (limit offset : Int)
    (tbl : List ConvRow) : List ConvRow :=
  if jsTrim searchTerm = "" then findAllConversations limit offset tbl
  else
    ((List.insertionSort createdDesc
      (tbl.filter fun c => iLikeContains c.content (jsTrim searchTerm))).drop
        offset.toNat).take limit.toNat

/-- C10: a topic search with an empty or whitespace-only term does not return
    the empty result of a no-match search: it falls back to findAll, returning
    conversations newest first under the given limit and offset, and is
    non-empty whenever rows remain past the offset and the limit admits one. -/
theorem C10_blank_topic_falls_back (searchTerm : String) (limit offset : Int)
    (tbl : List ConvRow) (hblank : jsTrim searchTerm = "") :
    searchByTopic searchTerm limit offset tbl =
      findAllConversations limit offset tbl ∧
    List.Sorted createdDesc (searchByTopic searchTerm limit offset tbl) ∧
    (offset.toNat < tbl.length → 1 ≤ limit →
      searchByTopic searchTerm limit offset tbl ≠ []) := by
  have heq : searchByTopic searchTerm limit offset tbl =
      findAllConversations limit offset tbl := by
    simp [searchByTopic, hblank]
  refine ⟨heq, ?_, ?_⟩
  · rw [heq, findAllConversations]
    exact ((List.sorted_insertionSort createdDesc tbl).sublist
      (List.drop_sublist _ _)).sublist (List.take_sublist _ _)
  · intro ho hl
    rw [heq, findAllConversations]
    intro hnil
    have hlen := congrArg List.length hnil
    rw [List.length_take, List.length_drop,
      (List.perm_insertionSort createdDesc tbl).length_eq] at hlen
    simp only [List.length_nil] at hlen
    omega

/-- C10, witness: a whitespace-only search term over a one-row store returns
    that row rather than the empty list. -/
theorem C10_witness :
    searchByTopic "   " 50 0 [⟨1, "hello", 7, "abc", "c1", "user", 5⟩] =
      findAllConversations 50 0 [⟨1, "hello", 7, "abc", "c1", "user", 5⟩] ∧
    List.Sorted createdDesc
      (searchByTopic "   " 50 0 [⟨1, "hello", 7, "abc", "c1", "user", 5⟩]) ∧
    searchByTopic "   " 50 0 [⟨1, "hello", 7, "abc", "c1", "user", 5⟩] ≠ [] := by
  have h := C10_blank_topic_falls_back "   " 50 0
    [⟨1, "hello", 7, "abc", "c1", "user", 5⟩] (by decide)
  exact ⟨h.1, h.2.1, h.2.2 (by decide) (by decide)⟩

end McpTs
